import Mathlib

/-!
Verification of the mcp-code action dispatcher (Registry + Executor + adapters).

The embedding follows the Rust source:
- `Value` models `serde_json::Value` with integer numbers (the code only ever
  reads numbers through `as_i64`, so a number is carried as an `Int`, and
  `as_i64` succeeds exactly when the value fits in a signed 64-bit integer).
- `Value.index` models square-bracket indexing `value["key"]` on a shared
  reference, which yields `Null` for a missing key or a non-object receiver.
- `Registry` models `src/core/registry.rs`: the `HashMap` is carried as an
  association list where `insert` prepends and lookup takes the first match,
  which realizes the map's replace-on-insert lookup semantics.
- `Executor.execute` models `src/core/executor.rs`; the channel sends made by
  one call are returned as the list of published values (zero or one).
- The adapters model `src/core/adapters/*`; external I/O performed by the file
  and api adapters is passed in as an oracle argument.
-/

set_option autoImplicit false

namespace McpCode

/-- `serde_json::Value`: null, booleans, numbers, strings, arrays, objects.
The code reads numbers only via `as_i64`, so a number carries an `Int`. -/
inductive Value where
  | null
  | bool (b : Bool)
  | num (n : Int)
  | str (s : String)
  | arr (elems : List Value)
  | obj (entries : List (String × Value))

/-- `value["key"]` on a shared `serde_json::Value` reference: the entry's value
in an object that has the key, `Null` otherwise (missing key or non-object). -/
def Value.index (v : Value) (key : String) : Value :=
  match v with
  | .obj entries =>
      match entries.find? (fun p => p.1 == key) with
      | some p => p.2
      | none => .null
  | _ => .null

/-- `Value::as_str`: `Some` exactly on strings. -/
def Value.as_str : Value → Option String
  | .str s => some s
  | _ => none

/-- Smallest `i64` value, `-2^63`. -/
def i64Min : Int := -(2 ^ 63)

/-- Largest `i64` value, `2^63 - 1`. -/
def i64Max : Int := 2 ^ 63 - 1

/-- `Value::as_i64`: `Some` exactly on numbers representable as an `i64`. -/
def Value.as_i64 : Value → Option Int
  | .num n => if i64Min ≤ n ∧ n ≤ i64Max then some n else none
  | _ => none

/-- Two's-complement wrap-around of an integer into the `i64` range, the
behavior of overflowing `i64` addition in Rust when overflow checks are off. -/
def wrapI64 (n : Int) : Int := (n + 2 ^ 63) % 2 ^ 64 - 2 ^ 63

/-- The `Adapter` trait of `src/core/registry.rs`: one operation
`handle(action, params) -> Result<Value, String>`. -/
structure Adapter where
  handle : String → Value → Except String Value

/-- `CalculatorAdapter::handle` (`src/core/adapters/calculator.rs`): on
`"add"`, read `params["a"]` and `params["b"]` via `as_i64` with default 0 and
return their `i64` sum; any other action is `Err("Unknown action")`. -/
def CalculatorAdapter.handle (action : String) (params : Value) :
    Except String Value :=
  if action = "add" then
    let a := ((params.index "a").as_i64).getD 0
    let b := ((params.index "b").as_i64).getD 0
    .ok (.num (wrapI64 (a + b)))
  else
    .error "Unknown action"

/-- `FileAdapter::handle` (`src/core/adapters/file.rs`): on `"write"`, require
string fields `path` and `content` (else `Err("Missing path")` /
`Err("Missing content")`), perform the write, and return `"File written"`; any
other action is `Err("Unknown action")`. The external call
`fs::write(path, content).await.map_err(|e| e.to_string())` is passed in as
the oracle `fsWrite`. -/
def FileAdapter.handle (fsWrite : String → String → Except String Unit)
    (action : String) (params : Value) : Except String Value :=
  if action = "write" then
    match (params.index "path").as_str with
    | none => .error "Missing path"
    | some path =>
        match (params.index "content").as_str with
        | none => .error "Missing content"
        | some content =>
            match fsWrite path content with
            | .error e => .error e
            | .ok _ => .ok (.str "File written")
  else
    .error "Unknown action"

/-- `ApiAdapter::handle` (`src/core/adapters/api.rs`): on `"get"`, require a
string field `url` (else `Err("Missing URL")`) and return the fetched,
decoded body; any other action is `Err("Unknown action")`. The external
send-and-decode sequence is passed in as the oracle `httpGet`. -/
def ApiAdapter.handle (httpGet : String → Except String Value)
    (action : String) (params : Value) : Except String Value :=
  if action = "get" then
    match (params.index "url").as_str with
    | none => .error "Missing URL"
    | some url => httpGet url
  else
    .error "Unknown action"

/-- The `Registry` of `src/core/registry.rs`: the name-to-adapter `HashMap`,
carried as an association list (insert prepends, lookup takes the first
match, so lookup sees the most recent insert for each name, exactly as the
map's replace-on-insert does). -/
structure Registry where
  adapters : List (String × Adapter)

/-- `Registry::new`: the empty mapping. -/
def Registry.new : Registry := ⟨[]⟩

/-- `Registry::register`: `self.adapters.insert(name.to_string(), adapter)` —
insert or replace the entry for `name`; no return value. -/
def Registry.register (r : Registry) (name : String) (adapter : Adapter) :
    Registry :=
  ⟨(name, adapter) :: r.adapters⟩

/-- `Registry::get`: `self.adapters.get(name)` — the handler registered under
`name`, or `None`. -/
def Registry.get (r : Registry) (name : String) : Option Adapter :=
  match r.adapters.find? (fun p => p.1 == name) with
  | some p => some p.2
  | none => none

/-- A registry built by a sequence of `register` calls starting from
`Registry::new`, as `main` does. -/
def Registry.ofList (regs : List (String × Adapter)) : Registry :=
  regs.foldl (fun r p => r.register p.1 p.2) Registry.new

/-- The success-shaped result `json!({"status": "success", "data": data})`. -/
def successResult (data : Value) : Value :=
  Value.obj [("status", Value.str "success"), ("data", data)]

/-- The error-shaped result `json!({"status": "error", "message": err})`. -/
def errorResult (err : String) : Value :=
  Value.obj [("status", Value.str "error"), ("message", Value.str err)]

/-- The routing/publication tail of `Executor::execute` (lines 21–30): look
the name up, invoke the handler, normalize the outcome, and publish it; an
unknown name publishes nothing. The returned list holds the values this call
sends on the output channel. -/
def Executor.dispatch (reg : Registry) (adapterName action : String)
    (params : Value) : List Value :=
  match reg.get adapterName with
  | some adapter =>
      match adapter.handle action params with
      | .ok data => [successResult data]
      | .error err => [errorResult err]
  | none => []

/-- `Executor::execute` (`src/core/executor.rs`): extract
`request["adapter"]` and `request["action"]` as strings with default `""`,
extract `request["params"]`, then route and publish. -/
def Executor.execute (reg : Registry) (request : Value) : List Value :=
  Executor.dispatch reg ((request.index "adapter").as_str.getD "")
    ((request.index "action").as_str.getD "") (request.index "params")

/-! ### Helper lemmas -/

/-- Wrapping is the identity on integers already in the `i64` range. -/
theorem wrapI64_eq_self (n : Int) (h1 : i64Min ≤ n) (h2 : n ≤ i64Max) :
    wrapI64 n = n := by
  unfold wrapI64
  unfold i64Min at h1
  unfold i64Max at h2
  omega

/-- Registering under `n` does not disturb the entry of any other name `m`. -/
theorem Registry.get_register_of_ne (r : Registry) (n m : String) (a : Adapter)
    (h : m ≠ n) : (r.register n a).get m = r.get m := by
  unfold Registry.register Registry.get
  have hb : ((n, a).1 == m) = false := by
    simp only [beq_eq_false_iff_ne, ne_eq]
    exact fun hnm => h hnm.symm
  simp only [List.find?_cons, hb]

/-- The empty registry answers every lookup with `none`. -/
theorem Registry.get_new (m : String) : Registry.new.get m = none := rfl

/-- Folding `register` over registrations none of which use the name `m`
leaves the entry for `m` unchanged at `none`. -/
theorem Registry.get_foldl_none (regs : List (String × Adapter)) (r : Registry)
    (m : String) (hr : r.get m = none) (hm : ∀ p ∈ regs, p.1 ≠ m) :
    (regs.foldl (fun r p => r.register p.1 p.2) r).get m = none := by
  induction regs generalizing r with
  | nil => simpa using hr
  | cons p ps ih =>
      simp only [List.foldl_cons]
      refine ih (r.register p.1 p.2) ?_ ?_
      · rw [Registry.get_register_of_ne r p.1 m p.2
          (Ne.symm (hm p (List.mem_cons_self p ps)))]
        exact hr
      · exact fun q hq => hm q (List.mem_cons_of_mem p hq)

/-! ### Claim theorems -/

/-- Claim C1: whenever the request's `adapter` field resolves through the
registry to a handler `a`, and `a.handle action params` returns a success
value `v`, `Executor.execute` publishes exactly one result, and it is the
success-shaped result wrapping `v`. -/
theorem execute_success_publishes_one (reg : Registry) (request : Value)
    (a : Adapter) (v : Value)
    (hfound : reg.get ((request.index "adapter").as_str.getD "") = some a)
    (hok : a.handle ((request.index "action").as_str.getD "")
        (request.index "params") = Except.ok v) :
    Executor.execute reg request = [successResult v] := by
  simp only [Executor.execute, Executor.dispatch, hfound, hok]

/-- Claim C1 witness: the main-function request, a calc add of 5 and 10,
publishes exactly the success result carrying 15. -/
theorem execute_success_publishes_one_witness :
    Executor.execute (Registry.new.register "calc" ⟨CalculatorAdapter.handle⟩)
        (Value.obj [("adapter", Value.str "calc"), ("action", Value.str "add"),
          ("params", Value.obj [("a", Value.num 5), ("b", Value.num 10)])])
      = [successResult (Value.num 15)] :=
  execute_success_publishes_one
    (Registry.new.register "calc" ⟨CalculatorAdapter.handle⟩)
    (Value.obj [("adapter", Value.str "calc"), ("action", Value.str "add"),
      ("params", Value.obj [("a", Value.num 5), ("b", Value.num 10)])])
    ⟨CalculatorAdapter.handle⟩ (Value.num 15) rfl rfl

/-- Claim C2: whenever the request resolves to the calculator adapter and the
action is not the one action it recognizes, exactly one result is published,
error-shaped with message "Unknown action". -/
theorem execute_unknown_action_error (reg : Registry) (request : Value)
    (hfound : reg.get ((request.index "adapter").as_str.getD "")
        = some ⟨CalculatorAdapter.handle⟩)
    (hact : (request.index "action").as_str.getD "" ≠ "add") :
    Executor.execute reg request = [errorResult "Unknown action"] := by
  simp only [Executor.execute, Executor.dispatch, hfound,
    CalculatorAdapter.handle, if_neg hact]

/-- Claim C2 witness: a calc request with action "subtract" publishes exactly
the error result with message "Unknown action". -/
theorem execute_unknown_action_error_witness :
    Executor.execute (Registry.new.register "calc" ⟨CalculatorAdapter.handle⟩)
        (Value.obj [("adapter", Value.str "calc"),
          ("action", Value.str "subtract"), ("params", Value.obj [])])
      = [errorResult "Unknown action"] :=
  execute_unknown_action_error
    (Registry.new.register "calc" ⟨CalculatorAdapter.handle⟩)
    (Value.obj [("adapter", Value.str "calc"),
      ("action", Value.str "subtract"), ("params", Value.obj [])])
    rfl (by decide)

/-- Claim C3: when the request's `adapter` name is not registered, `execute`
publishes nothing at all: the list of sent values is empty. -/
theorem execute_unknown_adapter_silent (reg : Registry) (request : Value)
    (hnone : reg.get ((request.index "adapter").as_str.getD "") = none) :
    Executor.execute reg request = [] := by
  simp only [Executor.execute, Executor.dispatch, hnone]

/-- Claim C3 witness: a request naming the unregistered adapter "ghost"
publishes zero results. -/
theorem execute_unknown_adapter_silent_witness :
    Executor.execute (Registry.new.register "calc" ⟨CalculatorAdapter.handle⟩)
        (Value.obj [("adapter", Value.str "ghost"),
          ("action", Value.str "noop"), ("params", Value.obj [])])
      = [] :=
  execute_unknown_adapter_silent
    (Registry.new.register "calc" ⟨CalculatorAdapter.handle⟩)
    (Value.obj [("adapter", Value.str "ghost"),
      ("action", Value.str "noop"), ("params", Value.obj [])])
    rfl

/-- Claim C4: `execute` never lets a fault escape: every value it publishes is
either success-shaped or error-shaped, and a handler failure with message `e`
is converted into exactly one published error-shaped result carrying `e`. -/
theorem execute_never_escapes (reg : Registry) (request : Value) :
    (∀ r ∈ Executor.execute reg request,
        (∃ d, r = successResult d) ∨ (∃ m, r = errorResult m))
  ∧ (∀ a e,
      reg.get ((request.index "adapter").as_str.getD "") = some a →
      a.handle ((request.index "action").as_str.getD "")
          (request.index "params") = Except.error e →
      Executor.execute reg request = [errorResult e]) := by
  constructor
  · intro r hr
    unfold Executor.execute Executor.dispatch at hr
    split at hr
    · split at hr
      · simp only [List.mem_singleton] at hr
        exact Or.inl ⟨_, hr⟩
      · simp only [List.mem_singleton] at hr
        exact Or.inr ⟨_, hr⟩
    · simp at hr
  · intro a e hget hh
    simp only [Executor.execute, Executor.dispatch, hget, hh]

/-- Claim C4 witness: an always-failing handler's failure is published as the
single error-shaped result, which is indeed result-shaped. -/
theorem execute_never_escapes_witness :
    Executor.execute
        (Registry.new.register "boom" ⟨fun _ _ => Except.error "exploded"⟩)
        (Value.obj [("adapter", Value.str "boom")])
      = [errorResult "exploded"]
  ∧ ((∃ d, errorResult "exploded" = successResult d)
      ∨ (∃ m, errorResult "exploded" = errorResult m)) :=
  ⟨(execute_never_escapes
      (Registry.new.register "boom" ⟨fun _ _ => Except.error "exploded"⟩)
      (Value.obj [("adapter", Value.str "boom")])).2
      ⟨fun _ _ => Except.error "exploded"⟩ "exploded" rfl rfl,
   (execute_never_escapes
      (Registry.new.register "boom" ⟨fun _ _ => Except.error "exploded"⟩)
      (Value.obj [("adapter", Value.str "boom")])).1
      (errorResult "exploded") (List.Mem.head _)⟩

/-- Claim C5: after `register n a`, looking up `n` returns exactly `a`, the
most recently registered handler for `n`, whatever was registered before:
last-write-wins, and `register` always succeeds. -/
theorem register_then_get_self (r : Registry) (n : String) (a : Adapter) :
    (r.register n a).get n = some a := by
  unfold Registry.register Registry.get
  simp only [List.find?_cons, beq_self_eq_true]

/-- Claim C6: a name that never occurs in the sequence of registrations is
answered with `none`, never a default handler. -/
theorem get_unregistered_none (regs : List (String × Adapter)) (m : String)
    (hm : ∀ p ∈ regs, p.1 ≠ m) :
    (Registry.ofList regs).get m = none :=
  Registry.get_foldl_none regs Registry.new m (Registry.get_new m) hm

/-- Claim C6 witness: the main-function registry, holding api, file and calc,
answers the never-registered name "ghost" with `none`. -/
theorem get_unregistered_none_witness :
    (Registry.ofList
        [("api", ⟨ApiAdapter.handle (fun _ => Except.error "offline")⟩),
         ("file", ⟨FileAdapter.handle (fun _ _ => Except.ok ())⟩),
         ("calc", ⟨CalculatorAdapter.handle⟩)]).get "ghost" = none :=
  get_unregistered_none
    [("api", ⟨ApiAdapter.handle (fun _ => Except.error "offline")⟩),
     ("file", ⟨FileAdapter.handle (fun _ _ => Except.ok ())⟩),
     ("calc", ⟨CalculatorAdapter.handle⟩)] "ghost"
    (by intro p hp; fin_cases hp <;> decide)

/-- Claim C7: `execute` extracts `adapter` and `action` through `as_str`,
defaulting each to the empty string whenever the field is absent or not a
string, extracts `params` by indexing (so an absent `params` field yields
null), and routes with exactly these defaulted values — no error is raised. -/
theorem execute_extraction_defaults (reg : Registry) (request : Value) :
    ((request.index "adapter").as_str = none →
      (request.index "action").as_str = none →
      Executor.execute reg request
        = Executor.dispatch reg "" "" (request.index "params"))
  ∧ (∀ entries, request = Value.obj entries →
      entries.find? (fun p => p.1 == "params") = none →
      request.index "params" = Value.null) := by
  constructor
  · intro hA hB
    unfold Executor.execute
    rw [hA, hB]
    rfl
  · intro entries he hfind
    subst he
    simp only [Value.index, hfind]

/-- Claim C7 witness: a request whose `adapter` field is a number and which
lacks `action` and `params` routes with both names defaulted to the empty
string and `params` defaulted to null. -/
theorem execute_extraction_defaults_witness :
    Executor.execute (Registry.new.register "calc" ⟨CalculatorAdapter.handle⟩)
        (Value.obj [("adapter", Value.num 7)])
      = Executor.dispatch
          (Registry.new.register "calc" ⟨CalculatorAdapter.handle⟩) "" ""
          ((Value.obj [("adapter", Value.num 7)]).index "params")
  ∧ (Value.obj [("adapter", Value.num 7)]).index "params" = Value.null :=
  ⟨(execute_extraction_defaults
      (Registry.new.register "calc" ⟨CalculatorAdapter.handle⟩)
      (Value.obj [("adapter", Value.num 7)])).1 rfl rfl,
   (execute_extraction_defaults
      (Registry.new.register "calc" ⟨CalculatorAdapter.handle⟩)
      (Value.obj [("adapter", Value.num 7)])).2
      [("adapter", Value.num 7)] rfl rfl⟩

/-- Claim C8 counterexample: at `a` the largest `i64` value and `b` one, the
calculator's add returns the wrapped-around value, which is not the integer
sum of the operands. -/
theorem calc_add_overflow_counterexample :
    CalculatorAdapter.handle "add"
        (Value.obj [("a", Value.num (2 ^ 63 - 1)), ("b", Value.num 1)])
      = Except.ok (Value.num (-(2 ^ 63)))
  ∧ (-(2 ^ 63) : Int) ≠ (2 ^ 63 - 1) + 1 :=
  ⟨rfl, by decide⟩

/-- Claim C8 (amended): the calculator's add always succeeds, returning the
two's-complement wrapping 64-bit sum of the defaulted operands, and whenever
the true integer sum fits in the `i64` range it is exactly that sum. -/
theorem calc_add_wrapped_sum (params : Value) :
    CalculatorAdapter.handle "add" params
      = Except.ok (Value.num (wrapI64
          (((params.index "a").as_i64).getD 0
            + ((params.index "b").as_i64).getD 0)))
  ∧ (i64Min ≤ ((params.index "a").as_i64).getD 0
        + ((params.index "b").as_i64).getD 0 →
      ((params.index "a").as_i64).getD 0
        + ((params.index "b").as_i64).getD 0 ≤ i64Max →
      CalculatorAdapter.handle "add" params
        = Except.ok (Value.num (((params.index "a").as_i64).getD 0
            + ((params.index "b").as_i64).getD 0))) := by
  constructor
  · rfl
  · intro h1 h2
    rw [← wrapI64_eq_self (((params.index "a").as_i64).getD 0
      + ((params.index "b").as_i64).getD 0) h1 h2]
    rfl

/-- Claim C8 (amended) witness: adding 5 and 10 yields 15, and adding 5 to an
absent operand yields 5 under the default-to-zero policy. -/
theorem calc_add_wrapped_sum_witness :
    CalculatorAdapter.handle "add"
        (Value.obj [("a", Value.num 5), ("b", Value.num 10)])
      = Except.ok (Value.num 15)
  ∧ CalculatorAdapter.handle "add" (Value.obj [("a", Value.num 5)])
      = Except.ok (Value.num 5) :=
  ⟨(calc_add_wrapped_sum
      (Value.obj [("a", Value.num 5), ("b", Value.num 10)])).2
      (by decide) (by decide),
   (calc_add_wrapped_sum (Value.obj [("a", Value.num 5)])).2
      (by decide) (by decide)⟩

/-- Claim C9: the file adapter's write fails with "Missing path" when `path`
is absent or not a string, fails with "Missing content" when `content` is
absent or not a string, and any success carries exactly the confirmation
string "File written" — for every filesystem behavior. -/
theorem file_write_validation
    (fsWrite : String → String → Except String Unit) (params : Value) :
    ((params.index "path").as_str = none →
      FileAdapter.handle fsWrite "write" params
        = Except.error "Missing path")
  ∧ (∀ p, (params.index "path").as_str = some p →
      (params.index "content").as_str = none →
      FileAdapter.handle fsWrite "write" params
        = Except.error "Missing content")
  ∧ (∀ v, FileAdapter.handle fsWrite "write" params = Except.ok v →
      v = Value.str "File written") := by
  refine ⟨?_, ?_, ?_⟩
  · intro h
    unfold FileAdapter.handle
    rw [if_pos rfl, h]
  · intro p hp hc
    unfold FileAdapter.handle
    rw [if_pos rfl, hp, hc]
  · intro v hv
    unfold FileAdapter.handle at hv
    rw [if_pos rfl] at hv
    split at hv
    · exact Except.noConfusion hv
    · split at hv
      · exact Except.noConfusion hv
      · split at hv
        · exact Except.noConfusion hv
        · injection hv with h
          exact h.symm

/-- Claim C9 witness: with an always-succeeding filesystem, a write without a
path fails with "Missing path", a write without content fails with
"Missing content", and a complete write's success value is "File written". -/
theorem file_write_validation_witness :
    FileAdapter.handle (fun _ _ => Except.ok ()) "write" (Value.obj [])
      = Except.error "Missing path"
  ∧ FileAdapter.handle (fun _ _ => Except.ok ()) "write"
        (Value.obj [("path", Value.str "/tmp/x")])
      = Except.error "Missing content"
  ∧ Value.str "File written" = Value.str "File written" :=
  ⟨(file_write_validation (fun _ _ => Except.ok ()) (Value.obj [])).1 rfl,
   (file_write_validation (fun _ _ => Except.ok ())
      (Value.obj [("path", Value.str "/tmp/x")])).2.1 "/tmp/x" rfl rfl,
   (file_write_validation (fun _ _ => Except.ok ())
      (Value.obj [("path", Value.str "/tmp/x"),
        ("content", Value.str "hi")])).2.2 (Value.str "File written") rfl⟩

/-- Claim C10: registering a handler under `n` leaves the lookup result of
every other name `m` unchanged. -/
theorem register_preserves_other (r : Registry) (n m : String) (a : Adapter)
    (hne : m ≠ n) : (r.register n a).get m = r.get m :=
  Registry.get_register_of_ne r n m a hne

/-- Claim C10 witness: registering "api" after "calc" leaves the lookup of
"calc" unchanged. -/
theorem register_preserves_other_witness :
    ((Registry.new.register "calc" ⟨CalculatorAdapter.handle⟩).register "api"
        ⟨ApiAdapter.handle (fun _ => Except.error "offline")⟩).get "calc"
      = (Registry.new.register "calc" ⟨CalculatorAdapter.handle⟩).get "calc" :=
  register_preserves_other
    (Registry.new.register "calc" ⟨CalculatorAdapter.handle⟩) "api" "calc"
    ⟨ApiAdapter.handle (fun _ => Except.error "offline")⟩ (by decide)

end McpCode
